import Mathlib

/-!
Shallow embedding of the Copernicus tidal-forecast-to-GRIB pipeline
(`copernicus_tides_to_grib.py`, with the legacy script
`Copernicus-tides-to-GRIB.py` alongside) and proofs about its
manifest-confirmation gate, collation, resolution reduction and
grid-message encoding stages.

Machine floats are modelled by exact rationals; Python lists and numpy
axes by Lean lists (axis order `time × latitude × longitude`); fallible
Python operations (`raise`, slicing with step 0) by `Except`/`Option`.
-/

namespace CopernicusTides

/-! ### Python string primitives

`str.strip`, `str.lower`, `s[:-1]`, `s[-1]`, `str.endswith` (single
character suffix) and `int(...)` parsing, modelled over the character
list of the string so that all operations are structurally recursive. -/

/-- One character of `str.lower`: ASCII upper-case letters are shifted
to lower case, everything else is unchanged. -/
def pyLowerChar (c : Char) : Char :=
  if 'A' ≤ c ∧ c ≤ 'Z' then Char.ofNat (c.toNat + 32) else c

/-- `s.strip()`: drop whitespace from both ends. -/
def pyStrip (s : String) : String :=
  String.mk (((s.data.dropWhile Char.isWhitespace).reverse.dropWhile
    Char.isWhitespace).reverse)

/-- `s.strip().lower()`, the normalisation applied to the confirmation
answer in `download_files`. -/
def pyStripLower (s : String) : String :=
  String.mk ((((s.data.dropWhile Char.isWhitespace).reverse.dropWhile
    Char.isWhitespace).reverse).map pyLowerChar)

/-- `s.endswith(c)` for a one-character suffix `c`. -/
def lastCharIs (s : String) (c : Char) : Bool :=
  match s.data.getLast? with
  | some d => d == c
  | none => false

/-- `s[:-1]`. -/
def strDropLast (s : String) : String :=
  String.mk s.data.dropLast

/-- `s[-1]` (with an arbitrary default on the empty string, which would
raise in Python; all call sites have validated non-empty input). -/
def lastCharD (s : String) : Char :=
  s.data.getLastD ' '

/-- Digit-string value used by `pyInt?`. -/
def digitsToNat? (cs : List Char) : Option Nat :=
  cs.foldl
    (fun acc c =>
      acc.bind (fun a => if c.isDigit then some (a * 10 + (c.toNat - 48)) else none))
    (some 0)

/-- `int(s)`: strip whitespace, optional sign, decimal digits; `none`
models the `ValueError` raised on anything else. -/
def pyInt? (s : String) : Option Int :=
  match (((s.data.dropWhile Char.isWhitespace).reverse.dropWhile
      Char.isWhitespace).reverse) with
  | [] => none
  | '-' :: rest =>
    if rest.isEmpty then none else (digitsToNat? rest).map (fun n => -(n : Int))
  | '+' :: rest =>
    if rest.isEmpty then none else (digitsToNat? rest).map (fun n => (n : Int))
  | cs => (digitsToNat? cs).map (fun n => (n : Int))

/-- `l[0]` on a coordinate axis (Python would raise on an empty axis). -/
def pyFirst (l : List ℚ) : ℚ :=
  l.headD 0

/-- `l[-1]` on a coordinate axis. -/
def pyLast : List ℚ → ℚ
  | [] => 0
  | [a] => a
  | _ :: b :: t => pyLast (b :: t)

/-- `l[1]` on a coordinate axis. -/
def pySecond (l : List ℚ) : ℚ :=
  (l.drop 1).headD 0

/-! ### Manifest confirmation gate (`download_files`, lines 118-137)

After the two listing calls produce `downloads_list` (the prospective
manifest) the code prompts only when that list is non-empty; an answer
whose `.strip().lower()` is not exactly `"yes"` prints
"Download cancelled." and calls `exit()` (a clean termination, not an
exception) before the final `copernicusmarine.get` download call. -/

/-- How the run leaves the confirmation gate. -/
inductive GateOutcome
  | cancelled
  | proceeded
deriving DecidableEq

/-- Observable behaviour of the gate: whether the prompt was shown,
how the gate was left, and whether the final download call
(`copernicusmarine.get` with `file_list=...`) was reached. -/
structure GateResult where
  prompted : Bool
  outcome : GateOutcome
  fetched : Bool
deriving DecidableEq

/-- The confirmation gate of `download_files`. -/
def download_files_gate (downloads_list : List String) (answer : String) : GateResult :=
  if downloads_list ≠ [] then
    if pyStripLower answer ≠ "yes" then
      { prompted := true, outcome := GateOutcome.cancelled, fetched := false }
    else
      { prompted := true, outcome := GateOutcome.proceeded, fetched := true }
  else
    { prompted := false, outcome := GateOutcome.proceeded, fetched := true }

/-! ### Data model for granules and stacked arrays -/

/-- One NetCDF granule as loaded by `xr.open_dataset`: coordinate axes
and the two velocity variables, each indexed `time × latitude ×
longitude`; `none` cells are NaN (missing) values. -/
structure RawGranule where
  time : List ℚ
  latitude : List ℚ
  longitude : List ℚ
  uo : List (List (List (Option ℚ)))
  vo : List (List (List (Option ℚ)))
deriving DecidableEq

/-- A granule after `fillna(0)`: every cell is a definite value. -/
structure Granule where
  time : List ℚ
  latitude : List ℚ
  longitude : List ℚ
  uo : List (List (List ℚ))
  vo : List (List (List ℚ))
deriving DecidableEq, Inhabited

/-- One collated/reduced `xarray` data array: a time-indexed stack of
`latitude × longitude` fields with its coordinate axes. -/
structure DataArray where
  time : List ℚ
  latitude : List ℚ
  longitude : List ℚ
  values : List (List (List ℚ))
deriving DecidableEq, Inhabited

/-- `ds.fillna(0)` (line 148): missing values become 0. -/
def fillna (g : RawGranule) : Granule :=
  { time := g.time
    latitude := g.latitude
    longitude := g.longitude
    uo := g.uo.map (List.map (List.map (fun c => c.getD 0)))
    vo := g.vo.map (List.map (List.map (fun c => c.getD 0))) }

instance pairDescTotal {α : Type} : IsTotal (ℚ × α) (fun p q => q.1 ≤ p.1) :=
  ⟨fun a b => le_total b.1 a.1⟩

instance pairDescTrans {α : Type} : IsTrans (ℚ × α) (fun p q => q.1 ≤ p.1) :=
  ⟨fun _ _ _ h1 h2 => le_trans h2 h1⟩

instance pairDescDecidable {α : Type} : DecidableRel (fun (p q : ℚ × α) => q.1 ≤ p.1) :=
  fun p q => inferInstanceAs (Decidable (q.1 ≤ p.1))

instance ratDescTotal : IsTotal ℚ (fun a b : ℚ => b ≤ a) :=
  ⟨fun a b => le_total b a⟩

instance ratDescTrans : IsTrans ℚ (fun a b : ℚ => b ≤ a) :=
  ⟨fun _ _ _ h1 h2 => le_trans h2 h1⟩

instance ratDescDecidable : DecidableRel (fun (a b : ℚ) => b ≤ a) :=
  fun a b => inferInstanceAs (Decidable (b ≤ a))

/-- Reorder one `latitude × longitude` field slice by descending
latitude key (the row permutation performed by
`ds.sortby("latitude", ascending=False)`). -/
def sortSliceDesc (lats : List ℚ) (slice : List (List ℚ)) : List (List ℚ) :=
  (List.insertionSort (fun p q : ℚ × List ℚ => q.1 ≤ p.1) (lats.zip slice)).map Prod.snd

/-- The latitude axis after `ds.sortby("latitude", ascending=False)`. -/
def sortLatsDesc (lats : List ℚ) : List ℚ :=
  List.insertionSort (fun a b : ℚ => b ≤ a) lats

/-- `ds.sortby("latitude", ascending=False)`: the latitude axis is
sorted descending and every time slice of both variables is permuted
by the same key order. -/
def sortbyLatDesc (g : Granule) : Granule :=
  { time := g.time
    latitude := sortLatsDesc g.latitude
    longitude := g.longitude
    uo := g.uo.map (sortSliceDesc g.latitude)
    vo := g.vo.map (sortSliceDesc g.latitude) }

/-- Lines 150-152: `if ds.latitude[0] < ds.latitude[-1]: ds =
ds.sortby("latitude", ascending=False)`. -/
def normalizeLat (g : Granule) : Granule :=
  if pyFirst g.latitude < pyLast g.latitude then sortbyLatDesc g else g

/-- The knots conversion applied per cell in `collate_files` (lines
158-159): `uo / 1.94384`.  Note the legacy script multiplies instead. -/
def knotsCell (x : ℚ) : ℚ :=
  x / (1.94384 : ℚ)

/-- `collate_files` (lines 139-167): for each granule fill NaNs with 0,
normalise latitude order, apply the knots conversion to both velocity
variables, and concatenate everything along the time axis.  There is no
check that later granules share the first granule's grid geometry; the
result simply stacks whatever slices each granule carries.  (On an
empty file list `xr.concat` would raise; the model returns empty
arrays, and no claim concerns that case.) -/
def collate_files (files : List RawGranule) : DataArray × DataArray :=
  let gs := files.map (fun f => normalizeLat (fillna f))
  let lat0 := (gs.headD default).latitude
  let lon0 := (gs.headD default).longitude
  ( { time := gs.flatMap (fun g => g.time)
      latitude := lat0
      longitude := lon0
      values := gs.flatMap (fun g => g.uo.map (List.map (List.map knotsCell))) }
  , { time := gs.flatMap (fun g => g.time)
      latitude := lat0
      longitude := lon0
      values := gs.flatMap (fun g => g.vo.map (List.map (List.map knotsCell))) } )

/-! ### Resolution reducer (`reduce_resolution`, lines 169-190) -/

/-- The elements selected by the Python slice `l[0::f]` for a positive
step `f`: indices `0, f, 2f, ...`. -/
def strideSlice {α : Type} (l : List α) (f : Nat) : List α :=
  match l with
  | [] => []
  | a :: rest => a :: strideSlice (rest.drop (f - 1)) f
termination_by l.length
decreasing_by simp; omega

/-- Python `l[0::step]` (`slice(0, None, step)` as used by `isel`):
step 0 raises `ValueError`, a positive step strides, a negative step
yields at most the first element (`l[0::-1] == l[:1]`). -/
def pySliceFrom0 {α : Type} (step : Int) (l : List α) : Except String (List α) :=
  if step = 0 then Except.error "slice step cannot be zero"
  else if 0 < step then Except.ok (strideSlice l step.toNat)
  else Except.ok (l.take 1)

/-- Apply a fallible slicing operation under one list level (used for
the latitude and longitude axes inside `values`). -/
def mapExcept {α β : Type} (g : α → Except String β) : List α → Except String (List β)
  | [] => Except.ok []
  | a :: as =>
    match g a with
    | Except.error e => Except.error e
    | Except.ok b =>
      match mapExcept g as with
      | Except.error e => Except.error e
      | Except.ok bs => Except.ok (b :: bs)

/-- Lines 171-179: derive the temporal reduction factor from the
`--temporal-resolution` string.  `int(int(n)/15)` truncates toward
zero (Python `int()` of a float), modelled by `Int.tdiv`; an unknown
suffix or an unparsable count raises `ValueError`. -/
def time_reduction_factor (tr : String) : Except String Int :=
  if lastCharIs tr 'm' then
    match pyInt? (strDropLast tr) with
    | some n => Except.ok (Int.tdiv n 15)
    | none => Except.error "ValueError: invalid literal for int"
  else if lastCharIs tr 'h' then
    match pyInt? (strDropLast tr) with
    | some n => Except.ok (n * 4)
    | none => Except.error "ValueError: invalid literal for int"
  else if lastCharIs tr 'd' then
    match pyInt? (strDropLast tr) with
    | some n => Except.ok (n * 96)
    | none => Except.error "ValueError: invalid literal for int"
  else
    Except.error "Invalid temporal resolution format. Valid format e.g. 15m, 6h, or 1d."

/-- `reduce_resolution` (lines 169-190): compute the temporal factor,
stride the time axis of both arrays by it, then stride the latitude
and longitude axes of both arrays by the spatial factor. -/
def reduce_resolution (tr : String) (spatial : Int) (u v : DataArray) :
    Except String (DataArray × DataArray) := do
  let f ← time_reduction_factor tr
  let ut ← pySliceFrom0 f u.time
  let uvals0 ← pySliceFrom0 f u.values
  let vt ← pySliceFrom0 f v.time
  let vvals0 ← pySliceFrom0 f v.values
  let ulat ← pySliceFrom0 spatial u.latitude
  let uvals1 ← mapExcept (fun slice => pySliceFrom0 spatial slice) uvals0
  let vlat ← pySliceFrom0 spatial v.latitude
  let vvals1 ← mapExcept (fun slice => pySliceFrom0 spatial slice) vvals0
  let ulon ← pySliceFrom0 spatial u.longitude
  let uvals2 ← mapExcept (mapExcept (fun row => pySliceFrom0 spatial row)) uvals1
  let vlon ← pySliceFrom0 spatial v.longitude
  let vvals2 ← mapExcept (mapExcept (fun row => pySliceFrom0 spatial row)) vvals1
  return ( { time := ut, latitude := ulat, longitude := ulon, values := uvals2 }
         , { time := vt, latitude := vlat, longitude := vlon, values := vvals2 } )

/-! ### Grid-message encoder (`main` lines 216-270, `write_field`) -/

/-- The grid geometry `main` reads off `u_current_array` (lines
216-218) and passes into every message. -/
structure GridSpec where
  north : ℚ
  south : ℚ
  west : ℚ
  east : ℚ
  Ni : Nat
  Nj : Nat
  di : ℚ
  dj : ℚ
deriving DecidableEq

/-- Lines 216-218 of `main`. -/
def gridGeomOf (u : DataArray) : GridSpec :=
  { north := pyFirst u.latitude
    south := pyLast u.latitude
    west := pyFirst u.longitude
    east := pyLast u.longitude
    Ni := u.longitude.length
    Nj := u.latitude.length
    di := pySecond u.longitude - pyFirst u.longitude
    dj := |pySecond u.latitude - pyFirst u.latitude| }

/-- One GRIB2 message as assembled by `write_field`: every key the code
sets, plus the flattened data values. -/
structure Msg where
  Ni : Nat
  Nj : Nat
  gridType : String
  latitudeOfFirstGridPointInDegrees : ℚ
  longitudeOfFirstGridPointInDegrees : ℚ
  latitudeOfLastGridPointInDegrees : ℚ
  longitudeOfLastGridPointInDegrees : ℚ
  iDirectionIncrementInDegrees : ℚ
  jDirectionIncrementInDegrees : ℚ
  discipline : Nat
  parameterCategory : Nat
  parameterNumber : Nat
  dataDate : Nat
  dataTime : Nat
  stepUnits : Char
  step : Int
  stepType : String
  typeOfLevel : String
  level : Nat
  values : List ℚ
deriving DecidableEq

/-- `write_field` (lines 228-266): build one message.  The values are
flattened in row-major (`order="C"`) order, the parameter number is 2
for the eastward (`"ocu"`) and 3 for the northward component, the step
unit is the last character of the temporal-resolution string and the
step is the timestamp index times its count. -/
def write_field (gs : GridSpec) (tr : String) (dataDate : Nat)
    (values : List (List ℚ)) (short_name : String) (step : Nat) : Msg :=
  { Ni := gs.Ni
    Nj := gs.Nj
    gridType := "regular_ll"
    latitudeOfFirstGridPointInDegrees := gs.north
    longitudeOfFirstGridPointInDegrees := gs.west
    latitudeOfLastGridPointInDegrees := gs.south
    longitudeOfLastGridPointInDegrees := gs.east
    iDirectionIncrementInDegrees := gs.di
    jDirectionIncrementInDegrees := gs.dj
    discipline := 10
    parameterCategory := 1
    parameterNumber := if short_name = "ocu" then 2 else 3
    dataDate := dataDate
    dataTime := 0
    stepUnits := lastCharD tr
    step := (step : Int) * ((pyInt? (strDropLast tr)).getD 0)
    stepType := "instant"
    typeOfLevel := "surface"
    level := 0
    values := values.flatten }

/-- The encoding loop (lines 268-270): two messages per timestamp, the
eastward one first, in timestamp order. -/
def encode_messages (tr : String) (dataDate : Nat) (u v : DataArray) : List Msg :=
  (List.range u.time.length).flatMap (fun idx =>
    [ write_field (gridGeomOf u) tr dataDate (u.values.getD idx []) "ocu" idx
    , write_field (gridGeomOf u) tr dataDate (v.values.getD idx []) "ocv" idx ])

/-- Lines 224-226: `if os.path.exists(grib_path): os.remove(grib_path)`
— whatever was there, the artifact is absent afterwards. -/
def delete_if_exists (initial : Option (List Msg)) : Option (List Msg) :=
  none

/-- One `codes_write` into the file opened in `"ab"` mode: append to
the artifact, creating it when absent. -/
def append_msg (fs : Option (List Msg)) (m : Msg) : Option (List Msg) :=
  some (fs.getD [] ++ [m])

/-- The artifact state after `main`'s deletion step and encoding loop,
starting from an arbitrary pre-existing artifact. -/
def encode_run (initial : Option (List Msg)) (tr : String) (dataDate : Nat)
    (u v : DataArray) : Option (List Msg) :=
  (encode_messages tr dataDate u v).foldl append_msg (delete_if_exists initial)

/-! ### The pipeline driver (`main`) -/

/-- Observable end state of one run: the gate behaviour, the final
artifact state, and the error the run died with (if any). -/
structure RunState where
  gate : GateResult
  artifact : Option (List Msg)
  errored : Option String
deriving DecidableEq

/-- `main` after the listing phase: the confirmation gate, then (only
when it proceeds) collation, reduction — whose `ValueError` aborts the
run before the artifact is touched — then artifact deletion and the
encoding loop.  Cancellation leaves the pre-existing artifact exactly
as it was. -/
def main_run (downloads_list : List String) (answer : String)
    (files : List RawGranule) (tr : String) (spatial : Int) (dataDate : Nat)
    (initialArtifact : Option (List Msg)) : RunState :=
  let g := download_files_gate downloads_list answer
  if g.outcome = GateOutcome.cancelled then
    { gate := g, artifact := initialArtifact, errored := none }
  else
    let c := collate_files files
    match reduce_resolution tr spatial c.1 c.2 with
    | Except.error e => { gate := g, artifact := initialArtifact, errored := some e }
    | Except.ok (u, v) =>
      { gate := g
        artifact := encode_run initialArtifact tr dataDate u v
        errored := none }

/-! ### Helper lemmas -/

theorem strideSlice_nil {α : Type} (f : Nat) : strideSlice ([] : List α) f = [] := by
  simp [strideSlice]

theorem strideSlice_cons {α : Type} (a : α) (rest : List α) (f : Nat) :
    strideSlice (a :: rest) f = a :: strideSlice (rest.drop (f - 1)) f := by
  rw [strideSlice]

theorem strideSlice_length {α : Type} (l : List α) (f : Nat) (hf : 0 < f) :
    (strideSlice l f).length = (l.length + f - 1) / f := by
  induction l, f using strideSlice.induct with
  | case1 f =>
    rw [strideSlice_nil]
    simp only [List.length_nil]
    rw [Nat.div_eq_of_lt (by omega)]
  | case2 f a rest ih =>
    rw [strideSlice_cons]
    simp only [List.length_cons, List.length_drop] at *
    rw [ih hf]
    have h2 : rest.length + 1 + f - 1 = rest.length + f := by omega
    rw [h2, Nat.add_div_right _ hf]
    rcases le_or_lt (f - 1) rest.length with h | h
    · have h1 : rest.length - (f - 1) + f - 1 = rest.length := by omega
      rw [h1]
    · have h1 : rest.length - (f - 1) = 0 := by omega
      rw [h1]
      rw [Nat.div_eq_of_lt (by omega), Nat.div_eq_of_lt (by omega)]

theorem strideSlice_getElem? {α : Type} (l : List α) (f : Nat) (hf : 0 < f) (k : Nat) :
    (strideSlice l f)[k]? = l[k * f]? := by
  induction l, f using strideSlice.induct generalizing k with
  | case1 f => simp [strideSlice_nil]
  | case2 f a rest ih =>
    rw [strideSlice_cons]
    cases k with
    | zero => simp
    | succ k =>
      simp only [List.getElem?_cons_succ]
      rw [ih hf, List.getElem?_drop]
      have h1 : (k + 1) * f = f - 1 + k * f + 1 := by rw [Nat.succ_mul]; omega
      rw [h1, List.getElem?_cons_succ]

theorem except_bind_ok {α β : Type} (a : α) (k : α → Except String β) :
    (Except.ok a >>= k) = k a := rfl

theorem pySliceFrom0_pos {α : Type} (step : Int) (hs : 0 < step) (l : List α) :
    pySliceFrom0 step l = Except.ok (strideSlice l step.toNat) := by
  rw [pySliceFrom0, if_neg hs.ne', if_pos hs]

theorem pySliceFrom0_zero {α : Type} (l : List α) :
    pySliceFrom0 0 l = Except.error "slice step cannot be zero" := by
  rw [pySliceFrom0, if_pos rfl]

theorem mapExcept_ok {α β : Type} (g : α → Except String β) (g' : α → β)
    (hg : ∀ a, g a = Except.ok (g' a)) (l : List α) :
    mapExcept g l = Except.ok (l.map g') := by
  induction l with
  | nil => rfl
  | cons a as ih => rw [mapExcept, hg a, ih, List.map_cons]

theorem foldl_append_msg (l : List Msg) (acc : List Msg) :
    l.foldl append_msg (some acc) = some (acc ++ l) := by
  induction l generalizing acc with
  | nil => simp
  | cons m rest ih =>
    rw [List.foldl_cons]
    show List.foldl append_msg (some (acc ++ [m])) rest = _
    rw [ih]
    simp

theorem foldl_append_msg_none (l : List Msg) :
    (l.foldl append_msg none).getD [] = l := by
  cases l with
  | nil => rfl
  | cons m rest =>
    rw [List.foldl_cons]
    show (List.foldl append_msg (some ([] ++ [m])) rest).getD [] = _
    rw [foldl_append_msg]
    simp

theorem flatMap_pairs_length {α : Type} (g h : Nat → α) (n : Nat) :
    ((List.range n).flatMap (fun i => [g i, h i])).length = 2 * n := by
  induction n with
  | zero => simp
  | succ n ih => rw [List.range_succ]; simp [ih]; omega

theorem flatMap_pairs_getElem_even {α : Type} (g h : Nat → α) (n k : Nat) (hk : k < n) :
    ((List.range n).flatMap (fun i => [g i, h i]))[2 * k]? = some (g k) := by
  induction n with
  | zero => omega
  | succ n ih =>
    rw [List.range_succ, List.flatMap_append, List.getElem?_append]
    rcases Nat.lt_or_ge k n with h' | h'
    · rw [if_pos (by rw [flatMap_pairs_length]; omega)]
      exact ih h'
    · have hk' : k = n := by omega
      subst hk'
      rw [if_neg (by rw [flatMap_pairs_length]; omega)]
      rw [flatMap_pairs_length]
      have h0 : 2 * k - 2 * k = 0 := by omega
      rw [h0]
      simp

theorem flatMap_pairs_getElem_odd {α : Type} (g h : Nat → α) (n k : Nat) (hk : k < n) :
    ((List.range n).flatMap (fun i => [g i, h i]))[2 * k + 1]? = some (h k) := by
  induction n with
  | zero => omega
  | succ n ih =>
    rw [List.range_succ, List.flatMap_append, List.getElem?_append]
    rcases Nat.lt_or_ge k n with h' | h'
    · rw [if_pos (by rw [flatMap_pairs_length]; omega)]
      exact ih h'
    · have hk' : k = n := by omega
      subst hk'
      rw [if_neg (by rw [flatMap_pairs_length]; omega)]
      rw [flatMap_pairs_length]
      have h0 : 2 * k + 1 - 2 * k = 1 := by omega
      rw [h0]
      simp

theorem pyLast_cons_cons (a b : ℚ) (t : List ℚ) :
    pyLast (a :: b :: t) = pyLast (b :: t) := rfl

/-- A strictly increasing axis of length at least two has its first
element strictly below its last. -/
theorem chainLt_first_lt_last : ∀ (a : ℚ) (l : List ℚ), l ≠ [] →
    List.Chain' (fun x y : ℚ => x < y) (a :: l) → a < pyLast (a :: l) := by
  intro a l
  induction l generalizing a with
  | nil => intro h; exact absurd rfl h
  | cons b t ih =>
    intro _ hc
    rw [List.chain'_cons] at hc
    cases t with
    | nil => exact hc.1
    | cons c t' =>
      have h2 := ih b (by simp) hc.2
      rw [pyLast_cons_cons]
      exact lt_trans hc.1 h2

/-- The latitude axis produced by `sortLatsDesc` is descending. -/
theorem sortLatsDesc_descending (lats : List ℚ) :
    List.Chain' (fun a b : ℚ => a ≥ b) (sortLatsDesc lats) :=
  List.Pairwise.chain' (List.sorted_insertionSort _ lats)

theorem sortLatsDesc_perm (lats : List ℚ) : (sortLatsDesc lats).Perm lats :=
  List.perm_insertionSort _ lats

theorem except_bind_error {α β : Type} (e : String) (k : α → Except String β) :
    ((Except.error e : Except String α) >>= k) = Except.error e := rfl

/-! ### Claim theorems -/

/-- C3: the confirmation prompt is shown iff the prospective manifest
is non-empty; when shown, any non-affirmative answer ends the run as a
cancellation (not an error) with nothing fetched and the pre-existing
artifact untouched; an empty prospective manifest proceeds without
prompting. -/
theorem confirmation_gate_semantics (dl : List String) (answer : String)
    (files : List RawGranule) (tr : String) (spatial : Int) (dataDate : Nat)
    (art : Option (List Msg)) :
    ((main_run dl answer files tr spatial dataDate art).gate.prompted = true ↔ dl ≠ [])
    ∧ (dl = [] →
        (main_run dl answer files tr spatial dataDate art).gate.outcome
          = GateOutcome.proceeded)
    ∧ (dl ≠ [] → pyStripLower answer ≠ "yes" →
        (main_run dl answer files tr spatial dataDate art).gate.outcome
          = GateOutcome.cancelled
        ∧ (main_run dl answer files tr spatial dataDate art).gate.fetched = false
        ∧ (main_run dl answer files tr spatial dataDate art).artifact = art
        ∧ (main_run dl answer files tr spatial dataDate art).errored = none)
    ∧ (dl ≠ [] → pyStripLower answer = "yes" →
        (main_run dl answer files tr spatial dataDate art).gate.outcome
          = GateOutcome.proceeded
        ∧ (main_run dl answer files tr spatial dataDate art).gate.fetched = true) := by
  by_cases hdl : dl = []
  · cases hr : reduce_resolution tr spatial (collate_files files).1 (collate_files files).2 <;>
      simp [main_run, download_files_gate, hdl, hr]
  · by_cases hans : pyStripLower answer = "yes"
    · cases hr : reduce_resolution tr spatial (collate_files files).1 (collate_files files).2 <;>
        simp [main_run, download_files_gate, hdl, hans, hr]
    · simp [main_run, download_files_gate, hdl, hans]

/-- C3 witness: with one prospective file and the answer "no", the run
is cancelled, nothing is fetched and the artifact is untouched; with an
empty prospective manifest there is no prompt and the gate proceeds. -/
theorem confirmation_gate_semantics_witness :
    (main_run ["a.nc"] "no" [] "15m" 1 0 none).gate.outcome = GateOutcome.cancelled
    ∧ (main_run ["a.nc"] "no" [] "15m" 1 0 none).gate.fetched = false
    ∧ (main_run [] "no" [] "15m" 1 0 none).gate.prompted = false
    ∧ (main_run [] "no" [] "15m" 1 0 none).gate.outcome = GateOutcome.proceeded := by
  have h1 := (confirmation_gate_semantics ["a.nc"] "no" [] "15m" 1 0 none).2.2.1
    (by decide) (by decide)
  have h2 := (confirmation_gate_semantics [] "no" [] "15m" 1 0 none)
  exact ⟨h1.1, h1.2.1, by simpa using (h2.1).not.mpr (by simp), h2.2.1 rfl⟩

/-- C9: with a non-empty prospective manifest the gate proceeds exactly
when the answer, stripped of surrounding whitespace and lower-cased,
equals "yes". -/
theorem affirmative_normalization (dl : List String) (answer : String) (hdl : dl ≠ []) :
    ((download_files_gate dl answer).outcome = GateOutcome.proceeded
      ↔ pyStripLower answer = "yes") := by
  by_cases hans : pyStripLower answer = "yes" <;>
    simp [download_files_gate, hdl, hans]

/-- C9 witness: " YES " and "Yes" proceed; "y", "yes please" and the
empty answer cancel. -/
theorem affirmative_normalization_witness :
    (download_files_gate ["a.nc"] " YES ").outcome = GateOutcome.proceeded
    ∧ (download_files_gate ["a.nc"] "Yes").outcome = GateOutcome.proceeded
    ∧ (download_files_gate ["a.nc"] "y").outcome ≠ GateOutcome.proceeded
    ∧ (download_files_gate ["a.nc"] "yes please").outcome ≠ GateOutcome.proceeded
    ∧ (download_files_gate ["a.nc"] "").outcome ≠ GateOutcome.proceeded := by
  refine ⟨(affirmative_normalization ["a.nc"] " YES " (by decide)).mpr (by decide),
    (affirmative_normalization ["a.nc"] "Yes" (by decide)).mpr (by decide),
    fun hp => ?_, fun hp => ?_, fun hp => ?_⟩
  · exact absurd ((affirmative_normalization ["a.nc"] "y" (by decide)).mp hp) (by decide)
  · exact absurd ((affirmative_normalization ["a.nc"] "yes please" (by decide)).mp hp)
      (by decide)
  · exact absurd ((affirmative_normalization ["a.nc"] "" (by decide)).mp hp) (by decide)

/-- C4 counterexample: the cadence "20m" has a fractional stride
(20/15 is not an integer), yet `reduce_resolution`'s factor derivation
does not raise a configuration error: it silently truncates to 1. -/
theorem fractional_stride_not_an_error :
    time_reduction_factor "20m" = Except.ok 1 ∧ ¬ ((15 : Nat) ∣ 20) := by
  exact ⟨rfl, by decide⟩

/-- C4 (amended): the factor is `n` truncated-divided by 15 for a
minutes suffix (fractional strides are truncated toward zero, not
rejected), `n*4` for hours, `n*96` for days, and any other suffix
raises the configuration `ValueError`. -/
theorem reduce_factor_derivation (tr : String) (n : Int)
    (hn : pyInt? (strDropLast tr) = some n) :
    (lastCharIs tr 'm' = true →
      time_reduction_factor tr = Except.ok (Int.tdiv n 15))
    ∧ (lastCharIs tr 'm' = false → lastCharIs tr 'h' = true →
      time_reduction_factor tr = Except.ok (n * 4))
    ∧ (lastCharIs tr 'm' = false → lastCharIs tr 'h' = false →
        lastCharIs tr 'd' = true →
      time_reduction_factor tr = Except.ok (n * 96))
    ∧ (lastCharIs tr 'm' = false → lastCharIs tr 'h' = false →
        lastCharIs tr 'd' = false →
      time_reduction_factor tr =
        Except.error "Invalid temporal resolution format. Valid format e.g. 15m, 6h, or 1d.") := by
  refine ⟨fun hm => ?_, fun hm hh => ?_, fun hm hh hd => ?_, fun hm hh hd => ?_⟩ <;>
    simp [time_reduction_factor, hm, hn] <;> simp [hh] <;> simp [hd]

/-- C4 witness: the factor derived for "20m" is `tdiv 20 15`. -/
theorem reduce_factor_derivation_witness :
    time_reduction_factor "20m" = Except.ok (Int.tdiv 20 15) :=
  (reduce_factor_derivation "20m" 20 (by decide)).1 (by decide)

/-- C10: a minutes cadence with count below 15 derives reduction
factor 0, and the subsequent time-axis slice with stride 0 makes
`reduce_resolution` raise rather than return a reduced series. -/
theorem minute_cadence_below_source_interval (tr : String) (n : Int)
    (hn : pyInt? (strDropLast tr) = some n) (hm : lastCharIs tr 'm' = true)
    (h0 : 0 ≤ n) (h15 : n < 15) :
    time_reduction_factor tr = Except.ok 0
    ∧ ∀ (spatial : Int) (u v : DataArray),
        reduce_resolution tr spatial u v = Except.error "slice step cannot be zero" := by
  have hfac : time_reduction_factor tr = Except.ok 0 := by
    simp [time_reduction_factor, hm, hn, Int.tdiv_eq_zero_of_lt h0 h15]
  refine ⟨hfac, fun spatial u v => ?_⟩
  rw [reduce_resolution]
  rw [hfac, except_bind_ok, pySliceFrom0_zero, except_bind_error]

/-- C10 witness: "5m" derives factor 0 and the reducer raises on a
one-timestamp array. -/
theorem minute_cadence_below_source_interval_witness :
    time_reduction_factor "5m" = Except.ok 0
    ∧ reduce_resolution "5m" 1 ⟨[0], [0], [0], [[[0]]]⟩ ⟨[0], [0], [0], [[[0]]]⟩
        = Except.error "slice step cannot be zero" := by
  have h := minute_cadence_below_source_interval "5m" 5 (by decide) (by decide)
    (by decide) (by decide)
  exact ⟨h.1, h.2 1 _ _⟩

/-- C7: after the collator's latitude normalisation (lines 150-152) the
latitude axis is ordered north to south — whether the granule's axis
was originally (strictly) ascending or descending — and it remains a
permutation of the original axis. -/
theorem latitude_descending_after_collation (g : Granule)
    (hmono : List.Chain' (fun a b : ℚ => a < b) g.latitude
           ∨ List.Chain' (fun a b : ℚ => a ≥ b) g.latitude) :
    List.Chain' (fun a b : ℚ => a ≥ b) (normalizeLat g).latitude
    ∧ ((normalizeLat g).latitude).Perm g.latitude := by
  obtain ⟨tm, lat, lon, uo, vo⟩ := g
  simp only at hmono
  rw [normalizeLat]
  by_cases hcond : pyFirst lat < pyLast lat
  · rw [if_pos hcond]
    exact ⟨sortLatsDesc_descending lat, sortLatsDesc_perm lat⟩
  · rw [if_neg hcond]
    refine ⟨?_, List.Perm.refl _⟩
    rcases hmono with hasc | hdesc
    · cases lat with
      | nil => exact List.chain'_nil
      | cons a tail =>
        cases tail with
        | nil => exact List.chain'_singleton a
        | cons b t =>
          exact absurd (chainLt_first_lt_last a (b :: t) (by simp) hasc) hcond
    · exact hdesc

/-- C7 witness: a granule whose latitude axis ascends as 1, 2, 3 has a
descending axis after normalisation. -/
theorem latitude_descending_after_collation_witness :
    List.Chain' (fun a b : ℚ => a ≥ b)
      (normalizeLat ⟨[0], [1, 2, 3], [0], [[[1], [2], [3]]], [[[0], [0], [0]]]⟩).latitude :=
  (latitude_descending_after_collation
    ⟨[0], [1, 2, 3], [0], [[[1], [2], [3]]], [[[0], [0], [0]]]⟩
    (Or.inl (by norm_num [List.chain'_cons]))).1

/-- C8: for a cadence whose derived reduction factor is a positive
integer (and a positive spatial factor), the reducer succeeds, the
output time axis of each array has length `ceil(T / factor)`, and the
k-th retained timestamp is the original timestamp at index
`k * factor`. -/
theorem reducer_time_axis (tr : String) (fn : Nat) (spatial : Int) (u v : DataArray)
    (hf : time_reduction_factor tr = Except.ok (fn : Int)) (hfn : 0 < fn)
    (hs : 0 < spatial) :
    ∃ p : DataArray × DataArray,
      reduce_resolution tr spatial u v = Except.ok p
      ∧ p.1.time.length = (u.time.length + fn - 1) / fn
      ∧ (∀ k : Nat, p.1.time[k]? = u.time[k * fn]?)
      ∧ p.2.time.length = (v.time.length + fn - 1) / fn
      ∧ (∀ k : Nat, p.2.time[k]? = v.time[k * fn]?) := by
  have hfi : (0 : Int) < (fn : Int) := by exact_mod_cast hfn
  have htn : ((fn : Int)).toNat = fn := by simp
  refine ⟨(⟨strideSlice u.time fn, strideSlice u.latitude spatial.toNat,
      strideSlice u.longitude spatial.toNat,
      ((strideSlice u.values fn).map (fun s => strideSlice s spatial.toNat)).map
        (List.map (fun r => strideSlice r spatial.toNat))⟩,
    ⟨strideSlice v.time fn, strideSlice v.latitude spatial.toNat,
      strideSlice v.longitude spatial.toNat,
      ((strideSlice v.values fn).map (fun s => strideSlice s spatial.toNat)).map
        (List.map (fun r => strideSlice r spatial.toNat))⟩),
    ?_, strideSlice_length u.time fn hfn, fun k => strideSlice_getElem? u.time fn hfn k,
    strideSlice_length v.time fn hfn, fun k => strideSlice_getElem? v.time fn hfn k⟩
  rw [reduce_resolution, hf, except_bind_ok, pySliceFrom0_pos _ hfi, htn, except_bind_ok,
    pySliceFrom0_pos _ hfi, htn, except_bind_ok, pySliceFrom0_pos _ hfi, htn,
    except_bind_ok, pySliceFrom0_pos _ hfi, htn, except_bind_ok,
    pySliceFrom0_pos _ hs, except_bind_ok,
    mapExcept_ok _ _ (fun a => pySliceFrom0_pos _ hs a), except_bind_ok,
    pySliceFrom0_pos _ hs, except_bind_ok,
    mapExcept_ok _ _ (fun a => pySliceFrom0_pos _ hs a), except_bind_ok,
    pySliceFrom0_pos _ hs, except_bind_ok,
    mapExcept_ok _ _ (fun a => mapExcept_ok _ _ (fun r => pySliceFrom0_pos _ hs r) a),
    except_bind_ok,
    pySliceFrom0_pos _ hs, except_bind_ok,
    mapExcept_ok _ _ (fun a => mapExcept_ok _ _ (fun r => pySliceFrom0_pos _ hs r) a),
    except_bind_ok]
  rfl

/-- C8 witness: cadence "30m" (factor 2) on a five-timestamp array
keeps ceil(5/2) = 3 timestamps, and the retained timestamp at index 1
is the original one at index 2. -/
theorem reducer_time_axis_witness :
    ∃ p : DataArray × DataArray,
      reduce_resolution "30m" 1
          ⟨[0, 1, 2, 3, 4], [50], [10], [[[1]], [[2]], [[3]], [[4]], [[5]]]⟩
          ⟨[0, 1, 2, 3, 4], [50], [10], [[[6]], [[7]], [[8]], [[9]], [[10]]]⟩
        = Except.ok p
      ∧ p.1.time.length = (([0, 1, 2, 3, 4] : List ℚ).length + 2 - 1) / 2
      ∧ p.1.time[1]? = ([0, 1, 2, 3, 4] : List ℚ)[1 * 2]? := by
  obtain ⟨p, hp, hlen, hget, _, _⟩ := reducer_time_axis "30m" 2 1
    ⟨[0, 1, 2, 3, 4], [50], [10], [[[1]], [[2]], [[3]], [[4]], [[5]]]⟩
    ⟨[0, 1, 2, 3, 4], [50], [10], [[[6]], [[7]], [[8]], [[9]], [[10]]]⟩
    rfl (by decide) (by decide)
  exact ⟨p, hp, hlen, hget 1⟩

/-- C5: the encoder emits exactly two messages per timestamp in
timestamp order — the eastward-component message immediately before
the northward one — appended to a single artifact whose pre-existing
content is discarded first (the final contents never depend on the
initial artifact). -/
theorem encoder_message_layout (initial : Option (List Msg)) (tr : String)
    (dataDate : Nat) (u v : DataArray) :
    (encode_run initial tr dataDate u v).getD [] = encode_messages tr dataDate u v
    ∧ (encode_messages tr dataDate u v).length = 2 * u.time.length
    ∧ ∀ i, i < u.time.length →
        (encode_messages tr dataDate u v)[2 * i]?
          = some (write_field (gridGeomOf u) tr dataDate (u.values.getD i []) "ocu" i)
        ∧ (encode_messages tr dataDate u v)[2 * i + 1]?
          = some (write_field (gridGeomOf u) tr dataDate (v.values.getD i []) "ocv" i) := by
  refine ⟨?_, flatMap_pairs_length _ _ _, fun i hi =>
    ⟨flatMap_pairs_getElem_even _ _ _ i hi, flatMap_pairs_getElem_odd _ _ _ i hi⟩⟩
  rw [encode_run, delete_if_exists, foldl_append_msg_none]

/-- C5 witness: one timestamp gives two messages; the first is the
eastward message, whatever artifact pre-existed. -/
theorem encoder_message_layout_witness :
    ((encode_run (some []) "15m" 20250709 ⟨[0], [5], [0], [[[2]]]⟩
        ⟨[0], [5], [0], [[[3]]]⟩).getD []).length
      = 2 * (([0] : List ℚ).length)
    ∧ (encode_messages "15m" 20250709 ⟨[0], [5], [0], [[[2]]]⟩
        ⟨[0], [5], [0], [[[3]]]⟩)[2 * 0]?
      = some (write_field (gridGeomOf ⟨[0], [5], [0], [[[2]]]⟩) "15m" 20250709
          ([[[2]]].getD 0 []) "ocu" 0) := by
  have h := encoder_message_layout (some []) "15m" 20250709 ⟨[0], [5], [0], [[[2]]]⟩
    ⟨[0], [5], [0], [[[3]]]⟩
  exact ⟨by rw [h.1, h.2.1], (h.2.2 0 (by decide)).1⟩

/-- C6: every encoded message pair carries discipline 10 and parameter
category 1 (oceanographic currents), parameter number 2 for the
eastward and 3 for the northward component, step equal to the
timestamp index times the cadence count, step unit equal to the
cadence's unit character, step type "instant", level type "surface"
with level 0, and the field values flattened in row-major order. -/
theorem message_product_definition (tr : String) (dataDate : Nat) (u v : DataArray)
    (n : Int) (hn : pyInt? (strDropLast tr) = some n) (i : Nat)
    (hi : i < u.time.length) :
    ∃ mu mv : Msg,
      (encode_messages tr dataDate u v)[2 * i]? = some mu
      ∧ (encode_messages tr dataDate u v)[2 * i + 1]? = some mv
      ∧ mu.discipline = 10 ∧ mv.discipline = 10
      ∧ mu.parameterCategory = 1 ∧ mv.parameterCategory = 1
      ∧ mu.parameterNumber = 2 ∧ mv.parameterNumber = 3
      ∧ mu.step = (i : Int) * n ∧ mv.step = (i : Int) * n
      ∧ mu.stepUnits = lastCharD tr ∧ mv.stepUnits = lastCharD tr
      ∧ mu.stepType = "instant" ∧ mv.stepType = "instant"
      ∧ mu.typeOfLevel = "surface" ∧ mv.typeOfLevel = "surface"
      ∧ mu.level = 0 ∧ mv.level = 0
      ∧ mu.values = (u.values.getD i []).flatten
      ∧ mv.values = (v.values.getD i []).flatten := by
  refine ⟨write_field (gridGeomOf u) tr dataDate (u.values.getD i []) "ocu" i,
    write_field (gridGeomOf u) tr dataDate (v.values.getD i []) "ocv" i,
    flatMap_pairs_getElem_even _ _ _ i hi, flatMap_pairs_getElem_odd _ _ _ i hi,
    rfl, rfl, rfl, rfl, by simp [write_field], by simp [write_field],
    ?_, ?_, rfl, rfl, rfl, rfl, rfl, rfl, rfl, rfl, rfl, rfl⟩
  · show (i : Int) * ((pyInt? (strDropLast tr)).getD 0) = (i : Int) * n
    rw [hn]
    rfl
  · show (i : Int) * ((pyInt? (strDropLast tr)).getD 0) = (i : Int) * n
    rw [hn]
    rfl

/-- C6 witness: the theorem instantiated on a one-timestamp pair of
arrays with cadence "15m" (count 15, unit character m). -/
theorem message_product_definition_witness :
    ∃ mu mv : Msg,
      (encode_messages "15m" 20250709 ⟨[0], [5], [0], [[[2]]]⟩
          ⟨[0], [5], [0], [[[3]]]⟩)[2 * 0]? = some mu
      ∧ (encode_messages "15m" 20250709 ⟨[0], [5], [0], [[[2]]]⟩
          ⟨[0], [5], [0], [[[3]]]⟩)[2 * 0 + 1]? = some mv
      ∧ mu.discipline = 10 ∧ mv.discipline = 10
      ∧ mu.parameterCategory = 1 ∧ mv.parameterCategory = 1
      ∧ mu.parameterNumber = 2 ∧ mv.parameterNumber = 3
      ∧ mu.step = ((0 : Nat) : Int) * 15 ∧ mv.step = ((0 : Nat) : Int) * 15
      ∧ mu.stepUnits = lastCharD "15m" ∧ mv.stepUnits = lastCharD "15m"
      ∧ mu.stepType = "instant" ∧ mv.stepType = "instant"
      ∧ mu.typeOfLevel = "surface" ∧ mv.typeOfLevel = "surface"
      ∧ mu.level = 0 ∧ mv.level = 0
      ∧ mu.values = ([[[2]]].getD 0 []).flatten
      ∧ mv.values = ([[[3]]].getD 0 []).flatten :=
  message_product_definition "15m" 20250709 ⟨[0], [5], [0], [[[2]]]⟩
    ⟨[0], [5], [0], [[[3]]]⟩ 15 (by decide) 0 (by decide)

/-- C1: `collate_files` divides the raw eastward velocity by 1.94384
instead of multiplying: a 1 m/s cell becomes 1/1.94384 ≈ 0.514, not
the 1.94384 knots the specification requires (the code's own comment
says "convert to knots", and the legacy script multiplies). -/
theorem knots_conversion_divides_not_multiplies :
    (collate_files [⟨[0], [50], [10], [[[some 1]]], [[[some 0]]]⟩]).1.values
      = [[[(1 : ℚ) / (1.94384 : ℚ)]]]
    ∧ (1 : ℚ) / (1.94384 : ℚ) ≠ (1 : ℚ) * (1.94384 : ℚ) := by
  constructor
  · norm_num [collate_files, fillna, normalizeLat, pyFirst, pyLast, knotsCell]
  · norm_num

/-- C2: `collate_files` performs no grid-consistency check: two
granules whose longitude axes have different lengths (Ni = 2 vs
Ni = 3) are silently stacked onto one time axis instead of failing
with a data-integrity error. -/
theorem collator_stacks_mismatched_grids :
    ((collate_files
        [ ⟨[0], [10, 9], [0, 1],
            [[[some 1, some 1], [some 1, some 1]]],
            [[[some 0, some 0], [some 0, some 0]]]⟩
        , ⟨[1], [10, 9], [0, 1, 2],
            [[[some 1, some 1, some 1], [some 1, some 1, some 1]]],
            [[[some 0, some 0, some 0], [some 0, some 0, some 0]]]⟩ ]).1.time = [0, 1])
    ∧ ((collate_files
        [ ⟨[0], [10, 9], [0, 1],
            [[[some 1, some 1], [some 1, some 1]]],
            [[[some 0, some 0], [some 0, some 0]]]⟩
        , ⟨[1], [10, 9], [0, 1, 2],
            [[[some 1, some 1, some 1], [some 1, some 1, some 1]]],
            [[[some 0, some 0, some 0], [some 0, some 0, some 0]]]⟩ ]).1.values.length = 2)
    ∧ (([0, 1] : List ℚ).length ≠ ([0, 1, 2] : List ℚ).length) := by
  refine ⟨?_, ?_, by decide⟩ <;>
    norm_num [collate_files, fillna, normalizeLat, pyFirst, pyLast]

end CopernicusTides
